import Mathlib

/-!
Formal model of the "reviews" GraphQL subgraph test fixture
(`scripts/router-e2e-defer-tests/subgraphs/reviews/` — `schema.py`,
`tracing.py`, `app.py`).

The fixture holds a fixed two-element collection of `Review` records,
a lookup-by-id query, a federation entity resolver that builds a
`Product` stub, a derived reviews join, an environment-driven tracing
bootstrap, and a web application that registers one GraphQL handler at
two paths.  Python integers are modelled as `Int`, Python strings as
`String`, the float literal `4.6` as the exact rational `4.6 : Rat`
(no arithmetic is ever performed on it), `os.environ` as a function
`String → Option String`, and the `assert` in `setup_tracing` as an
`Except.error` result.
-/

namespace Reviews

/-- A review record, from the `Review` class in `schema.py`.  The
`product_id` field is declared `strawberry.Private[str]` in the source,
i.e. it is not part of the external GraphQL type. -/
structure Review where
  id : Int
  body : String
  product_id : String
  deriving DecidableEq, Repr

/-- The first seeded review of `schema.py`. -/
def review1 : Review :=
  { id := 1, body := "A review for Apollo Federation", product_id := "apollo-federation" }

/-- The second seeded review of `schema.py`. -/
def review2 : Review :=
  { id := 2, body := "A review for Apollo Studio", product_id := "apollo-studio" }

/-- The fixed seeded collection `reviews` of `schema.py`. -/
def reviews : List Review := [review1, review2]

/-- A federated `Product` stub, from the `Product` class in `schema.py`.
`reviews_score` is a Python float in the source; it is modelled as an
exact rational since the code only ever stores the literal `4.6`. -/
structure Product where
  id : String
  reviews_count : Int
  reviews_score : Rat
  deriving DecidableEq, Repr

/-- `get_reviews` of `schema.py`:
`list(filter(lambda r: r.product_id == root.id, reviews))`. -/
def get_reviews (root : Product) : List Review :=
  reviews.filter (fun r => r.product_id == root.id)

/-- `Product.resolve_reference` of `schema.py`:
`Product(id=id, reviews_count=3, reviews_score=4.6)`. -/
def resolve_reference (id : String) : Product :=
  { id := id, reviews_count := 3, reviews_score := 4.6 }

/-- `Query.review` of `schema.py`:
`next((r for r in reviews if r.id == id), None)`. -/
def review (id : Int) : Option Review :=
  reviews.find? (fun r => r.id == id)

/-- One field declaration of a GraphQL type: its name and whether it is
marked `strawberry.Private` (hidden from the external schema). -/
structure FieldDecl where
  fname : String
  isPrivate : Bool
  deriving DecidableEq, Repr

/-- The field declarations of the `Review` class in `schema.py`:
`id: int`, `body: str`, `product_id: strawberry.Private[str]`. -/
def reviewFields : List FieldDecl :=
  [ { fname := "id", isPrivate := false },
    { fname := "body", isPrivate := false },
    { fname := "product_id", isPrivate := true } ]

/-- The names of the `Review` fields visible to external schema
consumers: exactly the non-`Private` declarations. -/
def exposedReviewFields : List String :=
  (reviewFields.filter (fun f => !f.isPrivate)).map FieldDecl.fname

/-- The externally observable part of a `Review`: the values of its
exposed fields. -/
structure ReviewView where
  id : Int
  body : String
  deriving DecidableEq, Repr

/-- Projection of a `Review` onto its externally exposed fields. -/
def reviewView (r : Review) : ReviewView :=
  { id := r.id, body := r.body }

/-! ## Tracing bootstrap (`tracing.py`, `app.py`) -/

/-- The kind of span processor a configured exporter is wrapped in:
`SimpleSpanProcessor` (synchronous, one span at a time) or
`BatchSpanProcessor` (buffered, periodic flush). -/
inductive ProcessorKind where
  | simple
  | batch
  deriving DecidableEq, Repr

/-- One span processor registered on the tracer provider: its kind and
the endpoint string of the exporter it wraps. -/
structure SpanProcessor where
  kind : ProcessorKind
  endpoint : String
  deriving DecidableEq, Repr

/-- The process environment: `os.environ.get` returns `none` for an
absent variable. -/
abbrev Env := String → Option String

/-- `setup_tracing` of `tracing.py`.  The `assert tracer_type in
\x7b"zipkin", "collector"\x7d` is modelled as an `Except.error`; the two
`if` branches each build an endpoint string from the `HOST`/`PORT`
environment variables (defaults `localhost` / `9411`) and append one
processor to the provider's processor list. -/
def setup_tracing (env : Env) : Except String (List SpanProcessor) :=
  let tracer_type := env "APOLLO_OTEL_EXPORTER_TYPE"
  if tracer_type = some "zipkin" ∨ tracer_type = some "collector" then
    let procs : List SpanProcessor := []
    let procs :=
      if tracer_type = some "zipkin" then
        let host := (env "APOLLO_OTEL_EXPORTER_HOST").getD "localhost"
        let port := (env "APOLLO_OTEL_EXPORTER_PORT").getD "9411"
        procs ++ [{ kind := ProcessorKind.simple,
                    endpoint := "http://" ++ host ++ ":" ++ port ++ "/api/v2/spans" }]
      else procs
    let procs :=
      if tracer_type = some "collector" then
        let host := (env "APOLLO_OTEL_EXPORTER_HOST").getD "localhost"
        let port := (env "APOLLO_OTEL_EXPORTER_PORT").getD "9411"
        procs ++ [{ kind := ProcessorKind.batch,
                    endpoint := "http://" ++ host ++ ":" ++ port ++ "/v1/traces" }]
      else procs
    Except.ok procs
  else
    Except.error "AssertionError: tracer_type must be zipkin or collector"

/-- The tracing part of module startup in `app.py`:
`if os.environ.get("APOLLO_OTEL_EXPORTER_TYPE"): setup_tracing(schema, app)`.
A missing variable and the empty string are both falsy in Python, so
tracing setup is skipped (`ok none`); otherwise the result of
`setup_tracing` is propagated (an `error` aborts startup). -/
def startup (env : Env) : Except String (Option (List SpanProcessor)) :=
  match env "APOLLO_OTEL_EXPORTER_TYPE" with
  | none => Except.ok none
  | some s => if s = "" then Except.ok none else (setup_tracing env).map some

/-! ## HTTP entrypoint (`app.py`) -/

/-- `Starlette.add_route`: appends one (path, handler) registration to
the application's route table. -/
def add_route {H : Type} (routes : List (String × H)) (path : String)
    (handler : H) : List (String × H) :=
  routes ++ [(path, handler)]

/-- The route table built in `app.py`: the same `graphql_app` handler is
registered at `/` and then at `/graphql`. -/
def appRoutes {H : Type} (graphql_app : H) : List (String × H) :=
  add_route (add_route ([] : List (String × H)) "/" graphql_app) "/graphql" graphql_app

/-- Route dispatch: the handler of the first registration whose path
matches, if any. -/
def route {H : Type} (routes : List (String × H)) (path : String) : Option H :=
  (routes.find? (fun p => p.fst == path)).map Prod.snd

/-- A concrete environment with only the exporter selector set to
`zipkin`; used to witness the tracing theorems. -/
def envZipkin : Env :=
  fun k => if k == "APOLLO_OTEL_EXPORTER_TYPE" then some "zipkin" else none

/-- A concrete environment with only the exporter selector set to
`collector`; used to witness the tracing theorems. -/
def envCollector : Env :=
  fun k => if k == "APOLLO_OTEL_EXPORTER_TYPE" then some "collector" else none

/-! ## Theorems -/

/-- The lookup `review id` evaluated by case analysis on `id`. -/
theorem review_eq (id : Int) :
    review id = if id = 1 then some review1 else if id = 2 then some review2 else none := by
  by_cases h1 : id = 1
  · subst h1; rfl
  · by_cases h2 : id = 2
    · subst h2; rfl
    · have e1 : ((1 : Int) == id) = false := by
        rw [beq_eq_false_iff_ne]
        exact fun h => h1 h.symm
      have e2 : ((2 : Int) == id) = false := by
        rw [beq_eq_false_iff_ne]
        exact fun h => h2 h.symm
      simp [review, reviews, List.find?, review1, review2, h1, h2, e1, e2]

/-- C1: for every integer id, `review` performs a linear scan over the
fixed collection `reviews` and returns the first review whose id equals
the argument, or `none` when no review matches (and, being a total Lean
function, it never raises); `review 1` is the review with body
"A review for Apollo Federation" and `review 999` is `none`. -/
theorem review_lookup_spec :
    (∀ (id : Int) (r : Review), review id = some r →
      r ∈ reviews ∧ r.id = id ∧
      ∃ l₁ l₂, reviews = l₁ ++ r :: l₂ ∧ ∀ r' ∈ l₁, r'.id ≠ id) ∧
    (∀ id : Int, review id = none ↔ ∀ r ∈ reviews, r.id ≠ id) ∧
    (review 1).map Review.body = some "A review for Apollo Federation" ∧
    review 999 = none := by
  refine ⟨?_, ?_, rfl, rfl⟩
  · intro id r h
    rw [review_eq] at h
    split_ifs at h with h1 h2
    · cases h
      subst h1
      exact ⟨by simp [reviews], rfl, [], [review2], rfl, by simp⟩
    · cases h
      subst h2
      refine ⟨by simp [reviews], rfl, [review1], [], rfl, ?_⟩
      intro r' hr'
      simp at hr'
      subst hr'
      decide
  · intro id
    rw [review_eq]
    split_ifs with h1 h2
    · subst h1
      decide
    · subst h2
      decide
    · simp [reviews]
      constructor
      · intro h; exact h1 h.symm
      · intro h; exact h2 h.symm

/-- Witness for C1 at the concrete input `id = 1`. -/
theorem review_lookup_spec_witness :
    review1 ∈ reviews ∧ review1.id = 1 ∧
    ∃ l₁ l₂, reviews = l₁ ++ review1 :: l₂ ∧ ∀ r' ∈ l₁, r'.id ≠ 1 :=
  review_lookup_spec.1 1 review1 rfl

/-- C2: for every input key, `resolve_reference` returns a `Product`
stub with `reviews_count = 3` and `reviews_score = 4.6`, and being a
total Lean function it never fails. -/
theorem resolve_reference_stub :
    ∀ key : String,
      (resolve_reference key).reviews_count = 3 ∧
      (resolve_reference key).reviews_score = 4.6 := by
  intro key
  exact ⟨rfl, rfl⟩

/-- C3: `get_reviews` returns exactly the reviews of the fixed
collection whose `product_id` equals the product's id, as a sublist of
the seeded collection (hence in original insertion order); for a
product with id "apollo-federation" it returns exactly the one matching
review. -/
theorem get_reviews_spec :
    (∀ (p : Product) (r : Review),
        r ∈ get_reviews p ↔ r ∈ reviews ∧ r.product_id = p.id) ∧
    (∀ p : Product, (get_reviews p).Sublist reviews) ∧
    get_reviews (resolve_reference "apollo-federation") = [review1] := by
  refine ⟨?_, ?_, rfl⟩
  · intro p r
    simp [get_reviews, List.mem_filter]
  · intro p
    exact List.filter_sublist reviews

/-- C9: the seeded collection holds exactly the two reviews with ids 1
and 2, every other integer id looks up to `none`, and `review 2` is the
review with body "A review for Apollo Studio". -/
theorem reviews_ids_spec :
    reviews.map Review.id = [1, 2] ∧
    (∀ id : Int, id ≠ 1 → id ≠ 2 → review id = none) ∧
    (review 2).map Review.body = some "A review for Apollo Studio" := by
  refine ⟨rfl, ?_, rfl⟩
  intro id h1 h2
  rw [review_eq]
  simp [h1, h2]

/-- Witness for C9 at the concrete input `id = 999`. -/
theorem reviews_ids_spec_witness : review 999 = none :=
  reviews_ids_spec.2.1 999 (by decide) (by decide)

/-- C4: at startup, an absent or empty `APOLLO_OTEL_EXPORTER_TYPE`
skips tracing setup entirely (no exporter attached); `"zipkin"` or
`"collector"` configures at least one exporter; any other non-empty
value makes startup fail (the assertion in `setup_tracing` raises). -/
theorem startup_tracing_spec :
    ∀ env : Env,
      ((env "APOLLO_OTEL_EXPORTER_TYPE" = none ∨
        env "APOLLO_OTEL_EXPORTER_TYPE" = some "") →
        startup env = Except.ok none) ∧
      ((env "APOLLO_OTEL_EXPORTER_TYPE" = some "zipkin" ∨
        env "APOLLO_OTEL_EXPORTER_TYPE" = some "collector") →
        ∃ procs, startup env = Except.ok (some procs) ∧ procs ≠ []) ∧
      (∀ s, env "APOLLO_OTEL_EXPORTER_TYPE" = some s →
        s ≠ "" → s ≠ "zipkin" → s ≠ "collector" →
        ∃ e, startup env = Except.error e) := by
  intro env
  refine ⟨?_, ?_, ?_⟩
  · rintro (h | h) <;> simp [startup, h]
  · rintro (h | h)
    · refine ⟨[{ kind := ProcessorKind.simple, endpoint := "http://" ++ (env "APOLLO_OTEL_EXPORTER_HOST").getD "localhost" ++ ":" ++ (env "APOLLO_OTEL_EXPORTER_PORT").getD "9411" ++ "/api/v2/spans" }], ?_, by simp⟩
      simp [startup, setup_tracing, h, Except.map]
    · refine ⟨[{ kind := ProcessorKind.batch, endpoint := "http://" ++ (env "APOLLO_OTEL_EXPORTER_HOST").getD "localhost" ++ ":" ++ (env "APOLLO_OTEL_EXPORTER_PORT").getD "9411" ++ "/v1/traces" }], ?_, by simp⟩
      simp [startup, setup_tracing, h, Except.map]
  · intro s hs h0 hz hc
    refine ⟨"AssertionError: tracer_type must be zipkin or collector", ?_⟩
    simp only [startup, hs, if_neg h0, setup_tracing, hs]
    rw [if_neg]
    · rfl
    · rintro (h | h)
      · exact hz (Option.some.inj h)
      · exact hc (Option.some.inj h)

/-- Witness for C4 at the concrete environment `envZipkin`. -/
theorem startup_tracing_spec_witness :
    ∃ procs, startup envZipkin = Except.ok (some procs) ∧ procs ≠ [] :=
  (startup_tracing_spec envZipkin).2.1 (Or.inl rfl)

/-- C5: with the selector set to `"zipkin"` and no host/port overrides,
`setup_tracing` configures exactly one exporter, with endpoint
`http://localhost:9411/api/v2/spans`, wrapped in a synchronous
(`SimpleSpanProcessor`) processor. -/
theorem zipkin_exporter_config :
    ∀ env : Env,
      env "APOLLO_OTEL_EXPORTER_TYPE" = some "zipkin" →
      env "APOLLO_OTEL_EXPORTER_HOST" = none →
      env "APOLLO_OTEL_EXPORTER_PORT" = none →
      setup_tracing env =
        Except.ok [{ kind := ProcessorKind.simple,
                     endpoint := "http://localhost:9411/api/v2/spans" }] := by
  intro env ht hh hp
  simp [setup_tracing, ht, hh, hp]

/-- Witness for C5 at the concrete environment `envZipkin`. -/
theorem zipkin_exporter_config_witness :
    setup_tracing envZipkin =
      Except.ok [{ kind := ProcessorKind.simple,
                   endpoint := "http://localhost:9411/api/v2/spans" }] :=
  zipkin_exporter_config envZipkin rfl rfl rfl

/-- C6: with the selector set to `"collector"` and no host/port
overrides, `setup_tracing` configures exactly one exporter, with
endpoint `http://localhost:9411/v1/traces` (the same default host and
default port 9411 as the zipkin case), wrapped in a batching
(`BatchSpanProcessor`) processor. -/
theorem collector_exporter_config :
    ∀ env : Env,
      env "APOLLO_OTEL_EXPORTER_TYPE" = some "collector" →
      env "APOLLO_OTEL_EXPORTER_HOST" = none →
      env "APOLLO_OTEL_EXPORTER_PORT" = none →
      setup_tracing env =
        Except.ok [{ kind := ProcessorKind.batch,
                     endpoint := "http://localhost:9411/v1/traces" }] := by
  intro env ht hh hp
  simp [setup_tracing, ht, hh, hp]

/-- Witness for C6 at the concrete environment `envCollector`. -/
theorem collector_exporter_config_witness :
    setup_tracing envCollector =
      Except.ok [{ kind := ProcessorKind.batch,
                   endpoint := "http://localhost:9411/v1/traces" }] :=
  collector_exporter_config envCollector rfl rfl rfl

/-- C7: the `product_id` field of `Review` is not among the externally
exposed fields (which are exactly `id` and `body`), and the externally
observable view of a review is fully determined by `id` and `body`
alone — two reviews differing only in `product_id` are externally
indistinguishable. -/
theorem review_private_key_not_exposed :
    exposedReviewFields = ["id", "body"] ∧
    "product_id" ∉ exposedReviewFields ∧
    ∀ r₁ r₂ : Review, r₁.id = r₂.id → r₁.body = r₂.body →
      reviewView r₁ = reviewView r₂ := by
  refine ⟨rfl, by decide, ?_⟩
  intro r₁ r₂ hid hbody
  simp [reviewView, hid, hbody]

/-- Witness for C7 at two concrete reviews differing only in their
product key. -/
theorem review_private_key_not_exposed_witness :
    reviewView { id := 1, body := "b", product_id := "x" } =
      reviewView { id := 1, body := "b", product_id := "y" } :=
  review_private_key_not_exposed.2.2
    { id := 1, body := "b", product_id := "x" }
    { id := 1, body := "b", product_id := "y" } rfl rfl

/-- C8: the paths `/` and `/graphql` are registered with the same
handler in the route table of `app.py`, so dispatching any request to
either path goes to the same handler and yields identical responses. -/
theorem routes_share_handler :
    ∀ (Req Resp : Type) (g : Req → Resp),
      route (appRoutes g) "/" = some g ∧
      route (appRoutes g) "/graphql" = some g ∧
      ∀ q : Req, (route (appRoutes g) "/").map (fun h => h q) =
        (route (appRoutes g) "/graphql").map (fun h => h q) := by
  intro Req Resp g
  exact ⟨rfl, rfl, fun q => rfl⟩

/-- C10: the product stub returned by `resolve_reference` carries the
supplied key as its id unchanged, so composing it with `get_reviews`
filters the review collection on the original input key. -/
theorem resolve_reference_id_passthrough :
    ∀ key : String,
      (resolve_reference key).id = key ∧
      get_reviews (resolve_reference key) = reviews.filter (fun r => r.product_id == key) := by
  intro key
  exact ⟨rfl, rfl⟩

end Reviews
